import Mathlib

/-!
Verification of the sound-machine real-time trigger-to-playback pipeline.

This file gives a shallow embedding of the three processes of the core:
the Pico button-scan firmware (src/pico_firmware/main.py), the trigger
daemon (src/daemon/soundtrigger.py) and the LED daemon
(src/daemon/led_daemon.py), and proves or refutes the specified
properties about them.  Python floats (millisecond timestamps) are
embedded as rationals; Python dicts as association lists; OS-level
facts (file existence, device availability, attached pipe readers,
process liveness) as explicit boolean/state parameters.
-/

namespace SoundMachine

/-- Whether the first character list occurs at the start of the second. -/
def leadsWith : List Char → List Char → Bool
| [], _ => true
| _ :: _, [] => false
| a :: as, b :: bs => a = b && leadsWith as bs

/-- Whether the first character list occurs contiguously anywhere in the
second: shallow embedding of the Python substring test `sub in name`. -/
def occursIn (need : List Char) : List Char → Bool
| [] => need.isEmpty
| c :: t => leadsWith need (c :: t) || occursIn need t

namespace Firmware

/-! Embedding of src/pico_firmware/main.py. -/

/-- Firmware debounce window `DEBOUNCE_MS = 50` (line 48). -/
def DEBOUNCE_MS : Int := 50

/-- MicroPython `time.ticks_diff`: tick counters wrap modulo the tick
period 2^30, and the difference is the signed modular distance in
[-2^29, 2^29). -/
def ticks_diff (a b : Int) : Int := (a - b + 2 ^ 29) % 2 ^ 30 - 2 ^ 29

/-- Per-button scan state: `_last_state[btn]` (1 = idle/high,
0 = pressed/low) and `_last_time_ms[btn]` (tick of the last accepted
active edge).  Firmware initialises them to 1 and 0 (lines 46-47). -/
structure BtnState where
  lastState : Nat
  lastTimeMs : Int
deriving DecidableEq

/-- Initial per-button state (lines 46-47). -/
def initBtn : BtnState := ⟨1, 0⟩

/-- One main-loop iteration for a single button (lines 128-141): read the
pin (`pinHigh` = `pin.value()` nonzero) at tick `now`; on a state change
to pressed, accept the edge and emit `P,<id>` only when
`ticks_diff(now, last) > DEBOUNCE_MS`; otherwise drop it silently.
Returns the new state and whether a press line was emitted. -/
def scanStep (st : BtnState) (pinHigh : Bool) (now : Int) : BtnState × Bool :=
  let state : Nat := if pinHigh then 1 else 0
  if state ≠ st.lastState then
    if state = 0 then
      if ticks_diff now st.lastTimeMs > DEBOUNCE_MS then
        (⟨state, now⟩, true)
      else
        (⟨state, st.lastTimeMs⟩, false)
    else
      (⟨state, st.lastTimeMs⟩, false)
  else
    (st, false)

/-- Run the scan loop over a list of `(pin level, tick)` samples,
collecting the per-iteration emission flags. -/
def scanRun (st : BtnState) : List (Bool × Int) → List Bool
| [] => []
| (p, t) :: rest => (scanStep st p t).2 :: scanRun (scanStep st p t).1 rest

/-- Mapping `LED_BUTTON_TO_PIN` (lines 26-31); the LEDs of buttons 9 and 15 are
physically swapped in hardware. -/
def LED_BUTTON_TO_PIN : List (Int × Int) := [(1, 14), (7, 15), (9, 17), (15, 16)]

/-- The LED-capable button ids: the keys of `leds` = `LED_BUTTON_TO_PIN`. -/
def ledButtons : List Int := LED_BUTTON_TO_PIN.map Prod.fst

/-- Override table `_led_overrides`: per LED-capable button, `none` = background blink
controls the LED, `some true` / `some false` = forced on / off. -/
abbrev Overrides := List (Int × Option Bool)

/-- Initial override table: every LED button maps to `none` (line 43). -/
def initOverrides : Overrides := ledButtons.map (fun b => (b, none))

/-- Dict assignment `_led_overrides[btn_id] = v` for a key already present. -/
def setOverride (t : Overrides) (k : Int) (v : Option Bool) : Overrides :=
  t.map (fun p => if p.1 = k then (k, v) else p)

/-- Dict lookup on the override table. -/
def getOverride (t : Overrides) (k : Int) : Option (Option Bool) :=
  (t.find? (fun p => p.1 == k)).map Prod.snd

/-- The `L,<id>,<state>` branch of `_handle_line` (lines 74-84), after the
line has been split and both fields parsed as integers: if the id is an
LED-capable button, state 2 clears the override, state 1 forces on, and
every other state forces off; other ids leave the table unchanged. -/
def handle_line_led (t : Overrides) (btnId state : Int) : Overrides :=
  if btnId ∈ ledButtons then
    if state = 2 then
      setOverride t btnId none
    else
      setOverride t btnId (if state = 1 then some true else some false)
  else
    t

end Firmware

namespace Trigger

/-! Embedding of src/daemon/soundtrigger.py. -/

/-- Host debounce window `debounce_ms = 200.0` (line 265). -/
def debounce_ms : ℚ := 200

/-- Observable actions of the press-handling path. -/
inductive Action where
| log (msg : String)
| spawn (pid : Nat)
| ledEvent (btnId : Nat)
deriving DecidableEq

/-- The Debounce Table `last_press_ts`: button id to last accepted press
timestamp in ms. -/
abbrev TsTable := List (Nat × ℚ)

/-- Dict read `last_press_ts.get(btn_id, 0.0)` (line 413). -/
def getTs (tbl : TsTable) (b : Nat) : ℚ :=
  match tbl.find? (fun p => p.1 == b) with
  | some p => p.2
  | none => 0

/-- Dict assignment `last_press_ts[btn_id] = now_ms` (line 416), modelled
so that each key occurs once. -/
def setTs (tbl : TsTable) (b : Nat) (t : ℚ) : TsTable :=
  (b, t) :: tbl.filter (fun p => p.1 ≠ b)

/-- Pruning pass `cleanup_debounce_dict` (lines 267-274): drop entries older than 60 s
relative to the current time. -/
def cleanup_debounce_dict (tbl : TsTable) (now : ℚ) : TsTable :=
  tbl.filter (fun p => ¬ (now - p.2 > 60000))

/-- Daemon state mutated by the press-handling path: the Debounce Table,
the set of live audio-player child processes (as fresh pids), the
Playback Handle `current_process` (which may reference an already exited
pid), `current_button`, and a fresh-pid counter. -/
structure DaemonState where
  last_press_ts : TsTable
  live : List Nat
  current_process : Option Nat
  current_button : Option Nat
  next_pid : Nat
deriving DecidableEq

/-- Daemon state at startup (lines 260-264). -/
def initState : DaemonState := ⟨[], [], none, none, 0⟩

/-- Environment facts for one press, abstracting the filesystem and OS:
the pressed button id and timestamp (ms), whether the button map has an
entry for it, whether the mapped WAV file exists on disk, whether
`check_audio_device` succeeds, and whether the spawned `aplay` process
is still alive at the 0.1 s startup check. -/
structure PressEnv where
  btn : Nat
  t : ℚ
  mapped : Bool
  wavExists : Bool
  deviceOk : Bool
  spawnOk : Bool
deriving DecidableEq

/-- Result of `play_wav_interruptible`: the live process set, the returned
handle, the fresh-pid counter, and the observable actions. -/
structure PlayResult where
  live : List Nat
  handle : Option Nat
  next_pid : Nat
  acts : List Action
deriving DecidableEq

/-- Playback starter `play_wav_interruptible` (lines 159-210): return `none` early when the
WAV file is missing or the audio device check fails (without touching
the current process); otherwise terminate the process referenced by
`current_process` if it is still running, then spawn `aplay`; if the
spawned process has already exited at the 0.1 s check, return `none`. -/
def play_wav_interruptible (e : PressEnv) (live : List Nat) (cur : Option Nat)
    (next : Nat) : PlayResult :=
  if e.wavExists = false then
    ⟨live, none, next, [.log "WAV not found"]⟩
  else if e.deviceOk = false then
    ⟨live, none, next, [.log "ERROR: Audio device not available"]⟩
  else
    let live1 := match cur with
      | some h => live.erase h
      | none => live
    if e.spawnOk then
      ⟨next :: live1, some next, next + 1, [.spawn next]⟩
    else
      ⟨live1, none, next + 1, [.spawn next, .log "ERROR: aplay exited immediately"]⟩

/-- One press through the main read-loop body (lines 411-441), with the
debounce window `W` (the daemon configures `W = debounce_ms`): debounce
check against the table, table update on acceptance followed by the
size-bounded cleanup, mapping lookup (drop with a log when unmapped),
then interruptible playback, `current_button` update and the LED press
notification.  Returns the new state and the actions performed. -/
def handlePress (W : ℚ) (s : DaemonState) (e : PressEnv) : DaemonState × List Action :=
  let last := getTs s.last_press_ts e.btn
  if e.t - last < W then
    (s, [])
  else
    let tbl0 := setTs s.last_press_ts e.btn e.t
    let tbl := if tbl0.length > 20 then cleanup_debounce_dict tbl0 e.t else tbl0
    if e.mapped = false then
      ({ s with last_press_ts := tbl }, [.log "No mapping for button"])
    else
      let r := play_wav_interruptible e s.live s.current_process s.next_pid
      (⟨tbl, r.live, r.handle, some e.btn, r.next_pid⟩, r.acts ++ [.ledEvent e.btn])

/-- Events driving the daemon state: a serial press line, or a live
audio-player process finishing on its own. -/
inductive Ev where
| press (e : PressEnv)
| procExit (pid : Nat)
deriving DecidableEq

/-- One daemon step. -/
def step (W : ℚ) (s : DaemonState) : Ev → DaemonState × List Action
| .press e => handlePress W s e
| .procExit pid => ({ s with live := s.live.erase pid }, [])

/-- Run the daemon over a list of events. -/
def run (W : ℚ) (s : DaemonState) : List Ev → DaemonState
| [] => s
| ev :: rest => run W (step W s ev).1 rest

/-- A press whose play attempt passes the two pre-playback checks of
`play_wav_interruptible`: the WAV file exists and the audio device check
succeeds. -/
def OkPress (e : PressEnv) : Prop := e.wavExists = true ∧ e.deviceOk = true

/-- Handle/process invariant: either no audio-player process is live, or
exactly one is live and it is the one the Playback Handle references. -/
def HandleInv (s : DaemonState) : Prop :=
  s.live = [] ∨ ∃ h, s.current_process = some h ∧ s.live = [h]

/-- One iteration of the `monitor_audio_playback` loop body
(lines 338-353), given the marker `last_signaled_process_id`
and its observation of `current_process`: `none`, or `some (pid, running)`
where `pid` stands for the process identity `id(current_process)` and
`running` for `poll() is None`.  Returns the new marker and whether a
stop notification (sentinel 0) was sent on the Event Channel. -/
def monitorStep (lastSignaled : Option Nat) (cur : Option (Nat × Bool)) :
    Option Nat × Bool :=
  match cur with
  | some (pid, running) =>
    if running = false then
      if lastSignaled ≠ some pid then (some pid, true) else (lastSignaled, false)
    else
      (none, false)
  | none => (lastSignaled, false)

/-- Run the watcher over a list of observations, counting the stop
notifications emitted. -/
def monitorRun (ls : Option Nat) : List (Option (Nat × Bool)) → Option Nat × Nat
| [] => (ls, 0)
| c :: rest =>
  let r := monitorStep ls c
  let w := monitorRun r.1 rest
  (w.1, (if r.2 then 1 else 0) + w.2)

/-- FIFO operations attempted by the Event Channel writer. -/
inductive FifoAct where
| openNB
| writeNB (v : Nat)
| openBlock
| writeBlock (v : Nat)
deriving DecidableEq

/-- Environment for one Event Channel write: does the FIFO path exist,
is a reader attached at the moment of the non-blocking attempt, and does
a reader attach later (before the daemon exits). -/
structure FifoEnv where
  fifoExists : Bool
  readerNow : Bool
  readerLater : Bool
deriving DecidableEq

/-- Body of `write_to_led_fifo` (lines 127-147), run on a background
daemon thread: when the FIFO exists, first a non-blocking open/write;
if that fails because no reader is attached, one further blocking open
is attempted, which completes (and delivers the message) only once a
reader attaches; errors are swallowed.  Returns the sequence of FIFO
operations attempted and whether the message was delivered. -/
def write_to_led_fifo (env : FifoEnv) (v : Nat) : List FifoAct × Bool :=
  if env.fifoExists = false then
    ([], false)
  else if env.readerNow then
    ([.openNB, .writeNB v], true)
  else if env.readerLater then
    ([.openNB, .openBlock, .writeBlock v], true)
  else
    ([.openNB, .openBlock], false)

/-- Actions of `send_button_event_to_led_daemon` on the calling thread. -/
inductive MainAct where
| startBackgroundThread
deriving DecidableEq

/-- Main-thread part of `send_button_event_to_led_daemon` (lines 149-151) on the main thread:
it only starts the background writer thread and returns; it performs no
FIFO operation itself. -/
def send_button_event_main : List MainAct := [.startBackgroundThread]

/-- Filesystem facts for `resolve_serial_port`: whether the preferred
path exists, whether /dev/serial/by-id exists with its (sorted) entries,
and the (sorted) /dev/ttyACM* entries; listed entries exist. -/
structure SerialEnv where
  preferredExists : Bool
  byIdExists : Bool
  byIdNames : List String
  acmNames : List String

/-- The by-id name test of lines 87-89: `"Pico" in name or "RP2040" in name`. -/
def picoLike (name : String) : Bool :=
  occursIn "Pico".toList name.toList || occursIn "RP2040".toList name.toList

/-- Port resolver `resolve_serial_port` (lines 73-104): (1) the preferred path when it
exists; (2) otherwise, when /dev/serial/by-id exists, the first of its
sorted entries taking Pico/RP2040-like names first; (3) otherwise the
first sorted /dev/ttyACM* device; (4) otherwise `none`. -/
def resolve_serial_port (env : SerialEnv) (preferred : String) : Option String :=
  if env.preferredExists then
    some preferred
  else
    let fromById :=
      if env.byIdExists then
        let picoFirst := env.byIdNames.filter picoLike
        let others := env.byIdNames.filter (fun c => !(picoFirst.contains c))
        (picoFirst ++ others).head?
      else
        none
    match fromById with
    | some c => some c
    | none => env.acmNames.head?

end Trigger

namespace LedDaemon

/-! Embedding of src/daemon/led_daemon.py. -/

/-- State enum `LEDState` (lines 40-44). -/
inductive LEDState where
| idle
| flashing
deriving DecidableEq

/-- Observable controller state: the `LEDState` plus the position of the
`_flashing_loop` within its on/off pattern (`flashPhase = 0` means the
pattern is at its beginning, about to drive the ON half).  The phase
models where the control thread is: `_run_control_loop` enters
`_flashing_loop` afresh (phase 0) exactly when the state changes from
IDLE to FLASHING, and while the state stays FLASHING the already-running
loop continues from wherever it is. -/
structure CtrlState where
  state : LEDState
  flashPhase : Nat
deriving DecidableEq

/-- Handler `button_pressed` (lines 139-143): set the state to FLASHING.  From
IDLE the control loop leaves `_idle_pulsing_loop` and enters
`_flashing_loop` at its beginning; when already FLASHING nothing changes
and the running flash pattern continues in place. -/
def button_pressed (s : CtrlState) : CtrlState :=
  match s.state with
  | .idle => ⟨.flashing, 0⟩
  | .flashing => ⟨.flashing, s.flashPhase⟩

/-- Handler `stop_flashing` (lines 145-150): FLASHING goes back to IDLE;
otherwise nothing changes. -/
def stop_flashing (s : CtrlState) : CtrlState :=
  if s.state = .flashing then ⟨.idle, 0⟩ else s

/-- Event dispatch of the main loop (lines 207-218), given the integer
parsed from one Event Channel line: 0 is the stop sentinel, anything
else is a press. -/
def processLine (s : CtrlState) (buttonId : Int) : CtrlState :=
  if buttonId = 0 then stop_flashing s else button_pressed s

end LedDaemon

end SoundMachine

/-! ## Helper lemmas -/

namespace SoundMachine

namespace Trigger

/-- Reading back the key just written into the Debounce Table yields the
written timestamp. -/
theorem getTs_setTs_self (tbl : TsTable) (b : Nat) (t : ℚ) :
    getTs (setTs tbl b t) b = t := by
  simp [getTs, setTs, List.find?]

/-- A table entry written at the pruning time itself survives the pruning
pass. -/
theorem getTs_cleanup_setTs_self (tbl : TsTable) (b : Nat) (t : ℚ) :
    getTs (cleanup_debounce_dict (setTs tbl b t) t) b = t := by
  unfold cleanup_debounce_dict setTs
  rw [List.filter_cons]
  norm_num [getTs, List.find?]

/-- A press inside the debounce window leaves the whole daemon state
unchanged and performs no action. -/
theorem handlePress_reject (W : ℚ) (s : DaemonState) (e : PressEnv)
    (hrej : e.t - getTs s.last_press_ts e.btn < W) :
    handlePress W s e = (s, []) := by
  unfold handlePress
  rw [if_pos hrej]

/-- An accepted press always stores its timestamp in the Debounce Table,
on every branch of the handler. -/
theorem handlePress_table_self (W : ℚ) (s : DaemonState) (e : PressEnv)
    (hacc : ¬ (e.t - getTs s.last_press_ts e.btn < W)) :
    getTs (handlePress W s e).1.last_press_ts e.btn = e.t := by
  unfold handlePress
  rw [if_neg hacc]
  by_cases hlen : (setTs s.last_press_ts e.btn e.t).length > 20 <;>
    by_cases hm : e.mapped = false <;>
      simp [hlen, hm, getTs_setTs_self, getTs_cleanup_setTs_self]

/-- An accepted unmapped press only logs; process state is untouched. -/
theorem handlePress_unmapped_fields (W : ℚ) (s : DaemonState) (e : PressEnv)
    (hacc : ¬ (e.t - getTs s.last_press_ts e.btn < W)) (hunm : e.mapped = false) :
    (handlePress W s e).2 = [Action.log "No mapping for button"] ∧
    (handlePress W s e).1.live = s.live ∧
    (handlePress W s e).1.current_process = s.current_process ∧
    (handlePress W s e).1.current_button = s.current_button := by
  unfold handlePress
  rw [if_neg hacc]
  simp [hunm]

/-- An accepted mapped press takes its live set and handle from
play_wav_interruptible. -/
theorem handlePress_mapped_fields (W : ℚ) (s : DaemonState) (e : PressEnv)
    (hacc : ¬ (e.t - getTs s.last_press_ts e.btn < W)) (hm : ¬ (e.mapped = false)) :
    (handlePress W s e).1.live =
      (play_wav_interruptible e s.live s.current_process s.next_pid).live ∧
    (handlePress W s e).1.current_process =
      (play_wav_interruptible e s.live s.current_process s.next_pid).handle := by
  unfold handlePress
  rw [if_neg hacc]
  simp [hm]

/-- A play attempt that passes both pre-playback checks preserves the
handle/process invariant: it first empties the live set (terminating the
process referenced by the handle) and then spawns at most one process. -/
theorem play_ok_inv (e : PressEnv) (live : List Nat) (cur : Option Nat) (next : Nat)
    (hw : e.wavExists = true) (hd : e.deviceOk = true)
    (hInv : live = [] ∨ ∃ h, cur = some h ∧ live = [h]) :
    (play_wav_interruptible e live cur next).live = [] ∨
      ∃ h, (play_wav_interruptible e live cur next).handle = some h ∧
        (play_wav_interruptible e live cur next).live = [h] := by
  unfold play_wav_interruptible
  rw [hw, hd]
  have hlive1 : (match cur with
      | some h => live.erase h
      | none => live) = [] := by
    rcases hInv with h1 | ⟨h, hc, hl⟩
    · cases cur <;> simp [h1]
    · rw [hc, hl]
      simp [List.erase_cons_head]
  simp only [Bool.true_eq_false, if_false, hlive1]
  by_cases hs : e.spawnOk <;> simp [hs]

/-- One daemon step (a press passing the pre-playback checks, or a
process exit) preserves the handle/process invariant. -/
theorem inv_step (W : ℚ) (s : DaemonState) (ev : Ev)
    (hInv : HandleInv s) (hok : ∀ e, ev = Ev.press e → OkPress e) :
    HandleInv (step W s ev).1 := by
  cases ev with
  | procExit pid =>
    have hstep : (step W s (Ev.procExit pid)).1 = { s with live := s.live.erase pid } := rfl
    rw [hstep]
    rcases hInv with h1 | ⟨h, hc, hl⟩
    · left
      simp [h1]
    · by_cases hp : h = pid
      · left
        simp [hl, hp, List.erase_cons_head]
      · right
        refine ⟨h, hc, ?_⟩
        simp [hl, List.erase_cons, hp]
  | press e =>
    obtain ⟨hw, hd⟩ := hok e rfl
    have hstep : (step W s (Ev.press e)).1 = (handlePress W s e).1 := rfl
    rw [hstep]
    by_cases hrej : e.t - getTs s.last_press_ts e.btn < W
    · rw [handlePress_reject W s e hrej]
      exact hInv
    · by_cases hm : e.mapped = false
      · obtain ⟨-, hlv, hcp, -⟩ := handlePress_unmapped_fields W s e hrej hm
        unfold HandleInv
        rw [hlv, hcp]
        exact hInv
      · obtain ⟨hlv, hcp⟩ := handlePress_mapped_fields W s e hrej hm
        unfold HandleInv
        rw [hlv, hcp]
        exact play_ok_inv e s.live s.current_process s.next_pid hw hd hInv

/-- The handle/process invariant is preserved along any event run whose
presses all pass the pre-playback checks. -/
theorem run_inv (W : ℚ) (evs : List Ev) (s : DaemonState)
    (hInv : HandleInv s)
    (hok : ∀ e, Ev.press e ∈ evs → OkPress e) :
    HandleInv (run W s evs) := by
  induction evs generalizing s with
  | nil => exact hInv
  | cons ev rest ih =>
    unfold run
    apply ih
    · apply inv_step W s ev hInv
      intro e hev
      exact hok e (by rw [hev]; exact List.mem_cons_self _ _)
    · intro e he
      exact hok e (List.mem_cons_of_mem _ he)

/-- Watcher runs compose over list append, adding emission counts. -/
theorem monitorRun_append (ls : Option Nat) (xs ys : List (Option (Nat × Bool))) :
    monitorRun ls (xs ++ ys) =
      ((monitorRun (monitorRun ls xs).1 ys).1,
        (monitorRun ls xs).2 + (monitorRun (monitorRun ls xs).1 ys).2) := by
  induction xs generalizing ls with
  | nil => simp [monitorRun]
  | cons c rest ih =>
    simp only [List.cons_append, monitorRun, List.append_eq, ih, Nat.add_assoc]

/-- While the observed process is running the watcher emits nothing and
(after at least one poll) clears its marker. -/
theorem monitorRun_running (pid : Nat) (n : Nat) (ls : Option Nat) :
    monitorRun ls (List.replicate n (some (pid, true))) =
      (if n = 0 then ls else none, 0) := by
  induction n generalizing ls with
  | zero => simp [monitorRun]
  | succ k ih =>
    rw [List.replicate_succ]
    simp only [monitorRun, monitorStep, ih]
    cases k <;> simp

/-- Once the marker holds the exited process, further polls of that same
exited process emit nothing. -/
theorem monitorRun_signaled (pid : Nat) (k : Nat) :
    monitorRun (some pid) (List.replicate k (some (pid, false))) = (some pid, 0) := by
  induction k with
  | zero => simp [monitorRun]
  | succ m ih =>
    rw [List.replicate_succ]
    simp [monitorRun, monitorStep, ih]

/-- Polling an exited process any positive number of times from a marker
not yet holding it emits exactly one stop notification. -/
theorem monitorRun_exited (pid : Nat) (m : Nat) (ls : Option Nat) (h : ls ≠ some pid) :
    monitorRun ls (List.replicate (m + 1) (some (pid, false))) = (some pid, 1) := by
  rw [List.replicate_succ]
  simp [monitorRun, monitorStep, h, monitorRun_signaled]

end Trigger

end SoundMachine

/-! ## Claim theorems -/

namespace SoundMachine

namespace Trigger

/-- C1 (amended): for every sequence of accepted, mapped presses each of
which also passes the two pre-playback checks of play_wav_interruptible
(the WAV file exists and the audio device check succeeds), interleaved
with spontaneous process exits, the set of live audio-player processes
owned by the daemon never has more than one element: starting a new
playback first terminates the process referenced by the Playback
Handle. -/
theorem c1_at_most_one_playback (W : ℚ) (evs : List Ev)
    (hok : ∀ e, Ev.press e ∈ evs → e.wavExists = true ∧ e.deviceOk = true) :
    (run W initState evs).live.length ≤ 1 := by
  have h := run_inv W evs initState (Or.inl rfl) hok
  rcases h with h1 | ⟨h, _, hl⟩
  · simp [h1]
  · simp [hl]

/-- Witness for C1: two well-spaced, mapped, fully successful presses
leave at most one live audio-player process. -/
theorem c1_at_most_one_playback_witness :
    (run 200 initState [Ev.press ⟨1, 1000, true, true, true, true⟩,
      Ev.press ⟨2, 2000, true, true, true, true⟩]).live.length ≤ 1 := by
  apply c1_at_most_one_playback
  intro e he
  simp only [List.mem_cons, List.not_mem_nil, or_false, Ev.press.injEq] at he
  rcases he with rfl | rfl <;> exact ⟨rfl, rfl⟩

/-- Counterexample for C1 as stated: three accepted, mapped presses (the
timestamps show all three were accepted into the Debounce Table) where
the second press references a missing WAV file.  play_wav_interruptible
then returns early without terminating the first process, the main loop
overwrites the Playback Handle with the returned None, and the third
press spawns a second process while the first is still live: two live
audio-player processes. -/
theorem c1_counterexample :
    (run debounce_ms initState [Ev.press ⟨1, 1000, true, true, true, true⟩,
      Ev.press ⟨2, 2000, true, false, true, true⟩,
      Ev.press ⟨3, 3000, true, true, true, true⟩]).live.length = 2 ∧
    (run debounce_ms initState [Ev.press ⟨1, 1000, true, true, true, true⟩,
      Ev.press ⟨2, 2000, true, false, true, true⟩,
      Ev.press ⟨3, 3000, true, true, true, true⟩]).last_press_ts =
      [(3, 3000), (2, 2000), (1, 1000)] := by
  norm_num [run, step, handlePress, play_wav_interruptible, getTs, setTs,
    cleanup_debounce_dict, debounce_ms, initState, List.find?, List.filter,
    List.erase, Nat.beq, BEq.beq]

/-- C2: the playback-completion watcher emits exactly one stop
notification per process exit.  No notification is emitted while the
observed process is still running; the first poll after the exit of a
process whose identity differs from the marker emits the notification;
once signaled, further polls of that same exited process emit nothing;
and a run of polls seeing the process running n times and then exited
m+1 times emits exactly one notification in total. -/
theorem c2_stop_notification_once (ls : Option Nat) (pid : Nat) (n m : Nat)
    (h : ls ≠ some pid) :
    (monitorStep ls (some (pid, true))).2 = false ∧
    monitorStep (some pid) (some (pid, false)) = (some pid, false) ∧
    (monitorRun ls (List.replicate n (some (pid, true)) ++
      List.replicate (m + 1) (some (pid, false)))).2 = 1 := by
  refine ⟨by simp [monitorStep], by simp [monitorStep], ?_⟩
  rw [monitorRun_append, monitorRun_running]
  by_cases hn : n = 0
  · simp [hn, monitorRun_exited pid m ls h]
  · simp [hn, monitorRun_exited pid m none (by simp)]

/-- Witness for C2: process 7 polled running twice and then exited four
times produces exactly one stop notification. -/
theorem c2_stop_notification_once_witness :
    (monitorStep none (some (7, true))).2 = false ∧
    monitorStep (some 7) (some (7, false)) = (some 7, false) ∧
    (monitorRun none (List.replicate 2 (some (7, true)) ++
      List.replicate 4 (some (7, false)))).2 = 1 :=
  c2_stop_notification_once none 7 2 3 (by simp)

/-- C3: host-side debounce.  For a press of button b at time t with last
accepted timestamp T = getTs table b and window W: if t - T < W the
press is rejected and the entire daemon state (Debounce Table included)
is unchanged with no action performed; if t - T >= W the press is
accepted and the Debounce Table entry for b becomes t. -/
theorem c3_host_debounce (W : ℚ) (s : DaemonState) (e : PressEnv) :
    (e.t - getTs s.last_press_ts e.btn < W → handlePress W s e = (s, [])) ∧
    (W ≤ e.t - getTs s.last_press_ts e.btn →
      getTs (handlePress W s e).1.last_press_ts e.btn = e.t) :=
  ⟨fun h => handlePress_reject W s e h,
   fun h => handlePress_table_self W s e (not_lt.mpr h)⟩

/-- Witness for C3: with W = 200 and last accepted press of button 1 at
900 ms, a press at 1000 ms is rejected unchanged and a press at 1100 ms
is accepted, updating the table entry to 1100. -/
theorem c3_host_debounce_witness :
    handlePress 200 ⟨[(1, 900)], [], none, none, 0⟩ ⟨1, 1000, true, true, true, true⟩ =
      (⟨[(1, 900)], [], none, none, 0⟩, []) ∧
    getTs (handlePress 200 ⟨[(1, 900)], [], none, none, 0⟩
      ⟨1, 1100, true, true, true, true⟩).1.last_press_ts 1 = 1100 := by
  constructor
  · exact (c3_host_debounce 200 ⟨[(1, 900)], [], none, none, 0⟩ ⟨1, 1000, true, true, true, true⟩).1
      (by norm_num [getTs, List.find?])
  · exact (c3_host_debounce 200 ⟨[(1, 900)], [], none, none, 0⟩ ⟨1, 1100, true, true, true, true⟩).2
      (by norm_num [getTs, List.find?])

/-- C6 (amended): when no reader is attached at the moment of the write,
the main trigger-handling path is never blocked (it only starts a
background thread and performs no FIFO operation itself); on the
background thread the non-blocking write fails and exactly one further
blocking open is attempted, so the message is delivered after all if a
reader attaches before the daemon exits, and is silently dropped
otherwise - there is a retry, not an unconditional discard. -/
theorem c6_fifo_write_no_reader (env : FifoEnv) (v : Nat) (h : env.readerNow = false) :
    send_button_event_main = [MainAct.startBackgroundThread] ∧
    (write_to_led_fifo env v).1 =
      (if env.fifoExists = false then []
       else if env.readerLater then [.openNB, .openBlock, .writeBlock v]
       else [.openNB, .openBlock]) ∧
    ((write_to_led_fifo env v).2 = true ↔
      env.fifoExists = true ∧ env.readerLater = true) := by
  obtain ⟨fe, rn, rl⟩ := env
  cases h
  cases fe <;> cases rl <;> simp [write_to_led_fifo, send_button_event_main]

/-- Witness for C6: FIFO present, no reader now and none later - the
writer attempts one non-blocking and one blocking open and the message
is not delivered. -/
theorem c6_fifo_write_no_reader_witness :
    send_button_event_main = [MainAct.startBackgroundThread] ∧
    (write_to_led_fifo ⟨true, false, false⟩ 9).1 =
      (if (true : Bool) = false then []
       else if false then [.openNB, .openBlock, .writeBlock 9]
       else [.openNB, .openBlock]) ∧
    ((write_to_led_fifo ⟨true, false, false⟩ 9).2 = true ↔
      (true : Bool) = true ∧ (false : Bool) = true) :=
  c6_fifo_write_no_reader ⟨true, false, false⟩ 9 rfl

/-- Counterexample for C6 as stated: with the FIFO present, no reader
attached at the write attempt, but a reader attaching later, the writer
makes a second, blocking open after the failed non-blocking write (a
retry) and the message is delivered rather than discarded. -/
theorem c6_counterexample :
    (write_to_led_fifo ⟨true, false, true⟩ 5).1 =
      [.openNB, .openBlock, .writeBlock 5] ∧
    (write_to_led_fifo ⟨true, false, true⟩ 5).2 = true := by
  decide

/-- C7: the serial port resolver, in order and first match wins, returns
(1) the preferred path when it exists; (2) otherwise, when the by-id
directory exists, its first Pico/RP2040-like entry, such names being
preferred over all other candidates; (3) when no Pico-like entry exists,
the first by-id entry; (4) when the by-id directory is missing or empty,
the first enumerated ACM device; and (5) when nothing matches it returns
none instead of raising. -/
theorem c7_resolve_serial_port (env : SerialEnv) (preferred : String) :
    (env.preferredExists = true → resolve_serial_port env preferred = some preferred) ∧
    (env.preferredExists = false → env.byIdExists = true →
      ∀ c l, env.byIdNames.filter picoLike = c :: l →
        resolve_serial_port env preferred = some c) ∧
    (env.preferredExists = false → env.byIdExists = true →
      env.byIdNames.filter picoLike = [] →
      ∀ c l, env.byIdNames = c :: l →
        resolve_serial_port env preferred = some c) ∧
    (env.preferredExists = false → (env.byIdExists = false ∨ env.byIdNames = []) →
      resolve_serial_port env preferred = env.acmNames.head?) ∧
    (env.preferredExists = false → (env.byIdExists = false ∨ env.byIdNames = []) →
      env.acmNames = [] → resolve_serial_port env preferred = none) := by
  refine ⟨?_, ?_, ?_, ?_, ?_⟩
  · intro hp
    unfold resolve_serial_port
    rw [if_pos hp]
  · intro hp hb c l hfil
    unfold resolve_serial_port
    rw [if_neg (by simp [hp])]
    simp [hb, hfil]
  · intro hp hb hfil c l hnames
    unfold resolve_serial_port
    rw [if_neg (by simp [hp])]
    simp only [hb, if_true, hfil, List.nil_append]
    have hoth : env.byIdNames.filter (fun x => !(List.contains ([] : List String) x)) =
        env.byIdNames := by
      simp [List.contains]
    rw [hoth, hnames]
    rfl
  · intro hp hcase
    unfold resolve_serial_port
    rw [if_neg (by simp [hp])]
    rcases hcase with hb | hn
    · simp [hb]
    · cases hbe : env.byIdExists <;> simp [hn, hbe]
  · intro hp hcase hacm
    unfold resolve_serial_port
    rw [if_neg (by simp [hp])]
    rcases hcase with hb | hn
    · simp [hb, hacm]
    · cases hbe : env.byIdExists <;> simp [hn, hbe, hacm]

/-- Witness for C7: preferred path missing, by-id directory holding a
non-Pico name and a Pico name - the Pico-like entry wins. -/
theorem c7_resolve_serial_port_witness :
    resolve_serial_port ⟨false, true, ["usb-Acme_Widget_7",
      "usb-Raspberry_Pi_Pico_e660"], ["ttyACM0"]⟩ "/dev/ttyACM9" =
      some "usb-Raspberry_Pi_Pico_e660" :=
  (c7_resolve_serial_port ⟨false, true, ["usb-Acme_Widget_7",
      "usb-Raspberry_Pi_Pico_e660"], ["ttyACM0"]⟩ "/dev/ttyACM9").2.1 rfl rfl
    "usb-Raspberry_Pi_Pico_e660" [] (by decide)

/-- C8: an accepted press of an unmapped button (no placeholder exists in
the code) produces exactly one log action - no spawn and no Event
Channel message - and leaves the live process set, the Playback Handle
and the current button unchanged; the handler returns normally, ready
for the next press. -/
theorem c8_unmapped_press (W : ℚ) (s : DaemonState) (e : PressEnv)
    (hacc : W ≤ e.t - getTs s.last_press_ts e.btn) (hunm : e.mapped = false) :
    (handlePress W s e).2 = [Action.log "No mapping for button"] ∧
    (handlePress W s e).1.live = s.live ∧
    (handlePress W s e).1.current_process = s.current_process ∧
    (handlePress W s e).1.current_button = s.current_button :=
  handlePress_unmapped_fields W s e (not_lt.mpr hacc) hunm

/-- Witness for C8: pressing unmapped button 9 from the initial state
logs and changes no process state. -/
theorem c8_unmapped_press_witness :
    (handlePress 200 initState ⟨9, 1000, false, true, true, true⟩).2 =
      [Action.log "No mapping for button"] ∧
    (handlePress 200 initState ⟨9, 1000, false, true, true, true⟩).1.live = initState.live ∧
    (handlePress 200 initState ⟨9, 1000, false, true, true, true⟩).1.current_process =
      initState.current_process ∧
    (handlePress 200 initState ⟨9, 1000, false, true, true, true⟩).1.current_button =
      initState.current_button :=
  c8_unmapped_press 200 initState ⟨9, 1000, false, true, true, true⟩
    (by norm_num [getTs, initState, List.find?]) rfl

/-- C10: the Debounce Table is updated before the mapping lookup, so an
accepted press of an unmapped button still refreshes the window: its
timestamp is stored, and a second press of the same button within the
window is rejected even though the first played no sound. -/
theorem c10_debounce_before_lookup (W : ℚ) (s : DaemonState) (e1 e2 : PressEnv)
    (hacc : W ≤ e1.t - getTs s.last_press_ts e1.btn)
    (hunm : e1.mapped = false)
    (hbtn : e2.btn = e1.btn)
    (hwin : e2.t - e1.t < W) :
    getTs (handlePress W s e1).1.last_press_ts e1.btn = e1.t ∧
    handlePress W (handlePress W s e1).1 e2 = ((handlePress W s e1).1, []) := by
  have htab := handlePress_table_self W s e1 (not_lt.mpr hacc)
  refine ⟨htab, ?_⟩
  apply handlePress_reject
  rw [hbtn, htab]
  exact hwin

/-- Witness for C10: unmapped button 9 accepted at 1000 ms; a second
press of button 9 at 1100 ms (window 200 ms) is rejected. -/
theorem c10_debounce_before_lookup_witness :
    getTs (handlePress 200 initState ⟨9, 1000, false, true, true, true⟩).1.last_press_ts 9 = 1000 ∧
    handlePress 200 (handlePress 200 initState ⟨9, 1000, false, true, true, true⟩).1
      ⟨9, 1100, true, true, true, true⟩ =
      ((handlePress 200 initState ⟨9, 1000, false, true, true, true⟩).1, []) :=
  c10_debounce_before_lookup 200 initState ⟨9, 1000, false, true, true, true⟩
    ⟨9, 1100, true, true, true, true⟩
    (by norm_num [getTs, initState, List.find?]) rfl rfl (by norm_num)

end Trigger

namespace Firmware

/-- C4 (amended): a falling edge for a button with idle last state is
accepted and a press line emitted if and only if STRICTLY MORE than
DEBOUNCE_MS milliseconds (with DEBOUNCE_MS = 50, satisfying the
at-least-50 bound) have elapsed since the last accepted edge (the code
compares with a strict greater-than); on acceptance the last-accepted
timestamp becomes the current tick, and a dropped edge leaves the
last-accepted timestamp unchanged and produces no emission. -/
theorem c4_firmware_debounce (st : BtnState) (now : Int) (hidle : st.lastState = 1) :
    ((scanStep st false now).2 = true ↔ ticks_diff now st.lastTimeMs > DEBOUNCE_MS) ∧
    ((scanStep st false now).2 = true → (scanStep st false now).1.lastTimeMs = now) ∧
    ((scanStep st false now).2 = false →
      (scanStep st false now).1.lastTimeMs = st.lastTimeMs) ∧
    (scanStep st false now).1.lastState = 0 ∧ DEBOUNCE_MS ≥ 50 := by
  have hd : DEBOUNCE_MS ≥ 50 := by decide
  unfold scanStep
  rw [hidle]
  by_cases h : ticks_diff now st.lastTimeMs > DEBOUNCE_MS <;> simp [h, hd]

/-- Witness for C4: the falling edge at tick 60 from the initial state. -/
theorem c4_firmware_debounce_witness :
    ((scanStep ⟨1, 0⟩ false 60).2 = true ↔ ticks_diff 60 (⟨1, 0⟩ : BtnState).lastTimeMs > DEBOUNCE_MS) ∧
    ((scanStep ⟨1, 0⟩ false 60).2 = true → (scanStep ⟨1, 0⟩ false 60).1.lastTimeMs = 60) ∧
    ((scanStep ⟨1, 0⟩ false 60).2 = false →
      (scanStep ⟨1, 0⟩ false 60).1.lastTimeMs = (⟨1, 0⟩ : BtnState).lastTimeMs) ∧
    (scanStep ⟨1, 0⟩ false 60).1.lastState = 0 ∧ DEBOUNCE_MS ≥ 50 :=
  c4_firmware_debounce ⟨1, 0⟩ 60 rfl

/-- Counterexample for C4 as stated: press accepted at tick 60, released
at 70, pressed again at tick 110 - exactly DEBOUNCE_MS = 50 ms after the
last accepted edge, which the claim (at least DEBOUNCE_MS elapsed)
requires to be accepted - yet the firmware emits nothing, because the
code demands strictly more than DEBOUNCE_MS. -/
theorem c4_counterexample :
    scanRun initBtn [(false, 60), (true, 70), (false, 110)] = [true, false, false] ∧
    (110 : Int) - 60 = DEBOUNCE_MS := by
  decide

/-- C9: a host line L,id,state whose id is an LED-capable button and
whose state parses as an integer outside 0, 1 and 2 sets that LED
override to Forced-Off (some false), exactly as state 0 would, and on
the all-clear initial table this visibly changes the table - the
command is not ignored. -/
theorem c9_out_of_range_led_state (t : Overrides) (btnId state : Int)
    (hbtn : btnId ∈ ledButtons)
    (h0 : state ≠ 0) (h1 : state ≠ 1) (h2 : state ≠ 2) :
    handle_line_led t btnId state = setOverride t btnId (some false) ∧
    handle_line_led t btnId state = handle_line_led t btnId 0 ∧
    handle_line_led initOverrides btnId state ≠ initOverrides := by
  have hset : handle_line_led t btnId state = setOverride t btnId (some false) := by
    unfold handle_line_led
    rw [if_pos hbtn, if_neg h2, if_neg h1]
  have hzero : handle_line_led t btnId 0 = setOverride t btnId (some false) := by
    unfold handle_line_led
    rw [if_pos hbtn, if_neg (by norm_num), if_neg (by norm_num)]
  refine ⟨hset, hset.trans hzero.symm, ?_⟩
  have hset0 : handle_line_led initOverrides btnId state =
      setOverride initOverrides btnId (some false) := by
    unfold handle_line_led
    rw [if_pos hbtn, if_neg h2, if_neg h1]
  rw [hset0]
  simp only [ledButtons, LED_BUTTON_TO_PIN, List.map, List.mem_cons,
    List.not_mem_nil, or_false] at hbtn
  rcases hbtn with rfl | rfl | rfl | rfl <;> decide

/-- Witness for C9: the line L,9,3 forces the LED of button 9 off,
exactly as L,9,0 would, and changes the initial override table. -/
theorem c9_out_of_range_led_state_witness :
    handle_line_led initOverrides 9 3 = setOverride initOverrides 9 (some false) ∧
    handle_line_led initOverrides 9 3 = handle_line_led initOverrides 9 0 ∧
    handle_line_led initOverrides 9 3 ≠ initOverrides :=
  c9_out_of_range_led_state initOverrides 9 3 (by decide) (by decide) (by decide) (by decide)

end Firmware

namespace LedDaemon

/-- C5 (code evaluated at the failing input): a press event arriving
while the controller is FLASHING mid-pattern (flash phase 3) leaves the
phase at 3 - the active pattern is NOT restarted from its beginning,
although the module and button_pressed docstrings promise a restart; the
other transitions of the claim hold: a press while IDLE enters FLASHING
at the beginning of the pattern, and a stop event (id 0) while FLASHING
returns to IDLE. -/
theorem c5_press_while_flashing_keeps_phase :
    processLine ⟨LEDState.flashing, 3⟩ 5 = ⟨LEDState.flashing, 3⟩ ∧
    (⟨LEDState.flashing, 3⟩ : CtrlState).flashPhase ≠ 0 ∧
    processLine ⟨LEDState.idle, 0⟩ 5 = ⟨LEDState.flashing, 0⟩ ∧
    processLine ⟨LEDState.flashing, 3⟩ 0 = ⟨LEDState.idle, 0⟩ := by
  decide

end LedDaemon

end SoundMachine
